import Mathlib

/-!
Shallow embedding of the KVideo adaptive presentation and playback-routing
engine, translated from the TypeScript sources:

* `src/lib/utils/ios-fullscreen-detector.ts` — capability probe
  (`IOSFullscreenDetector`) and presentation executor (`IOSFullscreenExecutor`);
* `src/components/player/IOSFullscreenVideoPlayer.tsx` — the component-level
  enter/exit/reconciliation logic;
* the `useEnhancedFullscreenControls` hook (device-detector / hook source file);
* `src/lib/ios/iosVideoPlayer.ts` — the playback router and channel dispatcher.

Host–environment introspection (DOM feature probes, the user-agent version
regex, network probes, WKWebView bridge presence, DOM exceptions) is modelled
as explicit input records; everything the engine itself computes is translated
function-by-function from the source.
-/

namespace KVideo

/-- Host environment as seen by the capability probe: whether a `window`
object exists (server vs browser), whether the user agent matches
`/iPad|iPhone|iPod/`, the iOS version extracted by the `OS (\d+)_(\d+)` regex
(major, minor — `parseFloat` of the dotted string compares with whole-number
thresholds exactly by the major component), and which fullscreen properties
the probe's freshly created `div` / `video` test elements expose. -/
structure Env where
  hasWindow : Bool
  isIOSDevice : Bool
  iosVersion : Option (Nat × Nat)
  divHasRequestFullscreen : Bool
  divHasShowSystemUI : Bool
  showSystemUIThrows : Bool
  divHasWebkitRequestFullscreen : Bool
  videoHasWebkitEnterFullscreen : Bool
  divHasWebkitEnterFullscreen : Bool
  deriving DecidableEq, Repr

/-- `IOSFullscreenInfo` from `ios-fullscreen-detector.ts`. -/
structure IOSFullscreenInfo where
  isIOS : Bool
  iosVersion : Option (Nat × Nat)
  isSupported : Bool
  bestMethod : String
  availableMethods : List String
  recommendations : List String
  deriving DecidableEq, Repr

/-- `FullscreenResult` from `ios-fullscreen-detector.ts`. -/
structure FullscreenResult where
  success : Bool
  method : String
  error : Option String
  fallbackAvailable : Bool
  deriving DecidableEq, Repr

/-- `parseFloat(iosVersion) >= n.0` for a whole-number threshold `n`:
true exactly when the major component is at least `n`. -/
def versionAtLeast (v : Nat × Nat) (n : Nat) : Bool :=
  n ≤ v.1

/-- `IOSFullscreenDetector.getAvailableMethods`: pushes each method tag whose
feature test on the fresh `div`/`video` passes, in source order; the
`showSystemUI` probe actually calls the API and drops the tag if it throws. -/
def getAvailableMethods (env : Env) : List String :=
  (if env.divHasRequestFullscreen then ["requestFullscreen"] else []) ++
  (if env.divHasShowSystemUI && !env.showSystemUIThrows then ["showSystemUI"] else []) ++
  (if env.divHasWebkitRequestFullscreen then ["webkitRequestFullscreen"] else []) ++
  (if env.videoHasWebkitEnterFullscreen then ["webkitEnterFullscreen"] else []) ++
  (if env.divHasWebkitEnterFullscreen then ["webkitEnterFullscreen"] else [])

/-- `IOSFullscreenDetector.determineBestMethod`. -/
def determineBestMethod (iosVersion : Option (Nat × Nat)) (methods : List String) : String :=
  match iosVersion with
  | none => "fallback"
  | some v =>
    if versionAtLeast v 17 && methods.contains "showSystemUI" then "native"
    else if versionAtLeast v 15 && methods.contains "webkitRequestFullscreen" then "webkit"
    else if methods.contains "webkitEnterFullscreen" then "video"
    else "fallback"

/-- `IOSFullscreenDetector.generateRecommendations`. -/
def generateRecommendations (iosVersion : Option (Nat × Nat)) (methods : List String) :
    List String :=
  match iosVersion with
  | none => ["设备信息获取失败，使用默认处理"]
  | some v =>
    (if versionAtLeast v 17 then ["建议使用iOS 17+原生全屏API", "支持完全隐藏状态栏"]
     else if versionAtLeast v 15 then ["建议使用webkit全屏API", "全屏效果良好，部分系统UI可能可见"]
     else ["建议使用优化的网页全屏", "兼容性好但无法完全隐藏系统UI"]) ++
    (if methods.contains "showSystemUI" then ["检测到系统API支持，推荐启用真全屏"] else [])

/-- `IOSFullscreenDetector.detect`: server, non-iOS and iOS branches. -/
def detect (env : Env) : IOSFullscreenInfo :=
  if !env.hasWindow then
    { isIOS := false, iosVersion := none, isSupported := true, bestMethod := "native",
      availableMethods := [], recommendations := ["服务端环境"] }
  else if !env.isIOSDevice then
    { isIOS := false, iosVersion := none, isSupported := true, bestMethod := "native",
      availableMethods := ["requestFullscreen"], recommendations := ["使用标准全屏API"] }
  else
    let methods := getAvailableMethods env
    { isIOS := true, iosVersion := env.iosVersion,
      isSupported := !methods.isEmpty,
      bestMethod := determineBestMethod env.iosVersion methods,
      availableMethods := methods,
      recommendations := generateRecommendations env.iosVersion methods }

/-- The fullscreen-relevant properties of the concrete target element handed
to the executor (`executeMethod` tests these on the element itself). -/
structure ElemCaps where
  isVideo : Bool
  hasRequestFullscreen : Bool
  hasShowSystemUI : Bool
  hasWebkitRequestFullscreen : Bool
  hasWebkitEnterFullscreen : Bool
  deriving DecidableEq, Repr

/-- The layout-affecting inline style properties that the degraded
CSS-emulation paths capture and overwrite. -/
structure ElemStyle where
  position : String
  top : String
  left : String
  width : String
  height : String
  zIndex : String
  margin : String
  padding : String
  borderRadius : String
  overflow : String
  deriving DecidableEq, Repr

/-- `IOSFullscreenExecutor.getMethodPriority`: a fixed priority map keyed by
the preferred method only (`priorityMap[preferred] || priorityMap.native`).
The `info` argument is received but not consulted. -/
def getMethodPriority (info : IOSFullscreenInfo) (preferred : String) : List String :=
  match preferred with
  | "native" => ["showSystemUI", "requestFullscreen", "webkitRequestFullscreen"]
  | "webkit" => ["webkitRequestFullscreen", "requestFullscreen", "showSystemUI"]
  | "video" => ["webkitEnterFullscreen", "webkitRequestFullscreen", "requestFullscreen"]
  | "fallback" => ["requestFullscreen", "webkitRequestFullscreen", "webkitEnterFullscreen"]
  | _ => ["showSystemUI", "requestFullscreen", "webkitRequestFullscreen"]

/-- `IOSFullscreenExecutor.executeMethod`: each case invokes the backend and
resolves success when the element exposes the method (`webkitEnterFullscreen`
additionally requires an `HTMLVideoElement`); otherwise it resolves the
"method unavailable" failure. Every switch path resolves synchronously, so the
timeout guard never decides the promise. -/
def executeMethod (el : ElemCaps) (method : String) : FullscreenResult :=
  let ok : FullscreenResult :=
    { success := true, method := method, error := none, fallbackAvailable := true }
  let notAvailable : FullscreenResult :=
    { success := false, method := method,
      error := some ("方法 " ++ method ++ " 不可用"), fallbackAvailable := true }
  match method with
  | "showSystemUI" => if el.hasShowSystemUI then ok else notAvailable
  | "webkitRequestFullscreen" => if el.hasWebkitRequestFullscreen then ok else notAvailable
  | "requestFullscreen" => if el.hasRequestFullscreen then ok else notAvailable
  | "webkitEnterFullscreen" =>
    if el.isVideo && el.hasWebkitEnterFullscreen then ok else notAvailable
  | _ => notAvailable

/-- The executor loop over the ranked list: the first method whose attempt
succeeds wins; failed attempts advance the chain. -/
def firstSuccess (el : ElemCaps) : List String → Option FullscreenResult
  | [] => none
  | m :: rest =>
    let r := executeMethod el m
    if r.success then some r else firstSuccess el rest

/-- `IOSFullscreenExecutor.forceFallbackFullscreen`: captures the element's
current layout style into a local `originalStyle` (which, as in the source, is
never read again), overwrites the properties to fill the viewport and raise
stacking priority, and reports success with method `css-fallback`. -/
def forceFallbackFullscreen (style : ElemStyle) : FullscreenResult × ElemStyle :=
  let fullscreenStyle : ElemStyle :=
    { style with position := "fixed", top := "0", left := "0",
                 width := "100vw", height := "100vh", zIndex := "2147483647",
                 margin := "0", padding := "0", borderRadius := "0" }
  ({ success := true, method := "css-fallback", error := none, fallbackAvailable := true },
   fullscreenStyle)

/-- Result of one executor run: the `FullscreenResult`, the element's style
afterwards, and the privileged backend calls actually issued (a backend is
invoked exactly when its availability guard passes, which in the source
immediately resolves success, so at most one call is made per chain). -/
structure ExecOut where
  res : FullscreenResult
  style : ElemStyle
  calls : List String
  deriving DecidableEq, Repr

/-- `IOSFullscreenExecutor.enterFullscreen`: server guard, probe-support
guard, ranked attempt chain, degraded CSS fallback, and the final
"return success but tagged web-fallback" branch. -/
def enterFullscreenExec (env : Env) (el : ElemCaps) (style : ElemStyle)
    (preferredMethod : String) : ExecOut :=
  if !env.hasWindow then
    { res := { success := false, method := "none",
               error := some "服务端环境不支持全屏", fallbackAvailable := true },
      style := style, calls := [] }
  else
    let info := detect env
    if !info.isSupported then
      { res := { success := false, method := "none",
                 error := some "设备不支持全屏功能", fallbackAvailable := true },
        style := style, calls := [] }
    else
      let methods := getMethodPriority info preferredMethod
      match firstSuccess el methods with
      | some r => { res := r, style := style, calls := [r.method] }
      | none =>
        let fb := forceFallbackFullscreen style
        if fb.1.success then
          { res := fb.1, style := fb.2, calls := [] }
        else
          { res := { success := true, method := "web-fallback",
                     error := some "使用网页全屏降级方案", fallbackAvailable := true },
            style := style, calls := [] }

/-- The document-level exit capabilities and the post-exit verification probe
used by `IOSFullscreenExecutor.exitFullscreen`. -/
structure ExitEnv where
  hasWebkitExitFullscreen : Bool
  hasExitFullscreen : Bool
  hasWebkitCancelFullScreen : Bool
  stillFullscreenAfterExit : Bool
  deriving DecidableEq, Repr

/-- `IOSFullscreenExecutor.exitFullscreen`: server guard, the three exit
methods tried in priority order (each counted successful only if the
fullscreen probe afterwards reports not-fullscreen), then the ESC-simulation
fallback which always reports success. -/
def exitFullscreenExec (env : Env) (ex : ExitEnv) : FullscreenResult :=
  if !env.hasWindow then
    { success := false, method := "none",
      error := some "服务端环境不支持全屏", fallbackAvailable := true }
  else if ex.hasWebkitExitFullscreen && !ex.stillFullscreenAfterExit then
    { success := true, method := "webkitExitFullscreen", error := none, fallbackAvailable := true }
  else if ex.hasExitFullscreen && !ex.stillFullscreenAfterExit then
    { success := true, method := "exitFullscreen", error := none, fallbackAvailable := true }
  else if ex.hasWebkitCancelFullScreen && !ex.stillFullscreenAfterExit then
    { success := true, method := "webkitCancelFullScreen", error := none, fallbackAvailable := true }
  else
    { success := true, method := "ESC_simulation",
      error := some "使用ESC键模拟退出", fallbackAvailable := true }

/-! ## Component layer: `IOSFullscreenVideoPlayer.tsx` -/

/-- The component state the enter/exit/reconciliation callbacks read and
write (`isFullscreen`, `hasUserInteracted`, `error`). -/
structure CompState where
  isFullscreen : Bool
  hasUserInteracted : Bool
  error : String
  deriving DecidableEq, Repr

/-- Outcome of one call to the component's `enterFullscreen` callback: the
boolean it returns, the friendly guidance toast it showed (if any), the
privileged backend calls issued on its behalf, and the resulting component
state and element style. -/
structure EnterOut where
  returned : Bool
  guidance : Option String
  backendCalls : List String
  st : CompState
  style : ElemStyle
  deriving DecidableEq, Repr

/-- The style overwrite performed by the component's `tryCSSFallback`: it
captures the current style into a local `originalStyle` (never read again, as
in the source) and applies the fullscreen values, including `overflow`. -/
def applyCssFallbackStyle (style : ElemStyle) : ElemStyle :=
  { style with position := "fixed", top := "0", left := "0",
               width := "100vw", height := "100vh", zIndex := "2147483647",
               margin := "0", padding := "0", borderRadius := "0",
               overflow := "hidden" }

/-- `IOSFullscreenVideoPlayer.enterFullscreen`: missing-container guard, the
user-interaction gate (friendly toast, return `false`, no backend touched),
then the executor with preferred method `native`; on executor failure the
component-level CSS fallback succeeds whenever the container exists. The
callback never consults `st.isFullscreen`. -/
def enterFullscreenComp (env : Env) (el : ElemCaps) (hasContainer : Bool)
    (st : CompState) (style : ElemStyle) : EnterOut :=
  if !hasContainer then
    { returned := false, guidance := none, backendCalls := [],
      st := { st with error := "全屏容器未找到" }, style := style }
  else if !st.hasUserInteracted then
    { returned := false, guidance := some "请点击屏幕任意位置后再尝试全屏",
      backendCalls := [],
      st := { st with error := "" }, style := style }
  else
    let out := enterFullscreenExec env el style "native"
    if out.res.success then
      { returned := true, guidance := none, backendCalls := out.calls,
        st := { st with isFullscreen := true, error := "" }, style := out.style }
    else
      { returned := true, guidance := some "已启用网页全屏模式", backendCalls := out.calls,
        st := { st with isFullscreen := true, error := "" },
        style := applyCssFallbackStyle style }

/-- `IOSFullscreenVideoPlayer.exitFullscreen`: runs the executor's exit, and on
failure a degraded chain ending in an ESC simulation and a forced reset; every
path (success, fallback success, forced reset, caught exception) sets
`isFullscreen` to `false`, and no path touches the element's inline style. -/
def exitFullscreenComp (env : Env) (ex : ExitEnv) (st : CompState)
    (style : ElemStyle) : CompState × ElemStyle :=
  let result := exitFullscreenExec env ex
  if result.success then
    ({ st with isFullscreen := false }, style)
  else
    ({ st with isFullscreen := false }, style)

/-- `IOSFullscreenVideoPlayer.validateFullscreenState`: compares the
host-observed fullscreen boolean with the internal flag and overwrites the
internal flag on mismatch. It performs no style restoration. -/
def validateFullscreenState (hostFullscreen : Bool) (st : CompState) : CompState :=
  if hostFullscreen ≠ st.isFullscreen then
    { st with isFullscreen := hostFullscreen }
  else st

/-- One tick of the component's 1000 ms poll interval: the interval is
registered only while `isFullscreen` is `true`, and each tick runs
`validateFullscreenState`. The element style is untouched. -/
def pollTick (hostFullscreen : Bool) (st : CompState) (style : ElemStyle) :
    CompState × ElemStyle :=
  if st.isFullscreen then (validateFullscreenState hostFullscreen st, style)
  else (st, style)

/-! ## Hook layer: `useEnhancedFullscreenControls.toggleFullscreen` -/

/-- Outcome of one `toggleFullscreen` call: the guidance toast (if any), the
privileged backend calls issued, and the value passed to `setIsFullscreen`
(`none` when the call defers to the native state-change sync). -/
structure ToggleOut where
  guidance : Option String
  backendCalls : List String
  setFullscreen : Option Bool
  deriving DecidableEq, Repr

/-- `useEnhancedFullscreenControls.toggleFullscreen`: missing-container guard;
the iOS interaction gate (active only when `enableIOSOptimizations` and the
probe reports iOS); then enter or exit depending on the current native
fullscreen state. The desktop enter branch invokes the first applicable
native call on the container or video element and defers the state sync to
the fullscreen-change events. -/
def toggleFullscreen (env : Env) (el : ElemCaps) (vid : ElemCaps) (ex : ExitEnv)
    (style : ElemStyle) (enableIOSOptimizations : Bool) (hasContainer : Bool)
    (hasUserInteracted : Bool) (currentNativeState : Bool)
    (fullscreenType : String) : ToggleOut × ElemStyle :=
  if !hasContainer then
    ({ guidance := none, backendCalls := [], setFullscreen := none }, style)
  else if enableIOSOptimizations && (detect env).isIOS && !hasUserInteracted then
    ({ guidance := some "请点击屏幕任意位置后再尝试全屏",
       backendCalls := [], setFullscreen := none }, style)
  else if !currentNativeState then
    if enableIOSOptimizations && (detect env).isIOS then
      let method :=
        if fullscreenType = "auto" then (detect env).bestMethod else fullscreenType
      let out := enterFullscreenExec env el style method
      if out.res.success then
        ({ guidance := none, backendCalls := out.calls, setFullscreen := some true },
         out.style)
      else
        ({ guidance := some "已启用网页全屏模式", backendCalls := out.calls,
           setFullscreen := some true }, out.style)
    else
      let calls :=
        if el.hasRequestFullscreen then ["requestFullscreen"]
        else if el.hasWebkitRequestFullscreen then ["webkitRequestFullscreen"]
        else if vid.hasWebkitEnterFullscreen then ["webkitEnterFullscreen"]
        else []
      ({ guidance := none, backendCalls := calls, setFullscreen := none }, style)
  else
    let result := exitFullscreenExec env ex
    if result.success then
      ({ guidance := none, backendCalls := [], setFullscreen := some false }, style)
    else
      ({ guidance := none, backendCalls := [], setFullscreen := some false }, style)

/-! ## Playback router and channel dispatcher: `src/lib/ios/iosVideoPlayer.ts` -/

/-- A successfully parsed URL as produced by `new URL(url)`: the original
string, the hostname, the pathname, and the `v` search parameter
(`searchParams.get('v')`, `none` when absent). -/
structure Url where
  href : String
  hostname : String
  pathname : String
  searchV : Option String
  deriving DecidableEq, Repr

/-- `String.includes` of JavaScript: whether `sub` occurs in `s`. -/
def strIncludesAux (sub : List Char) : List Char → Bool
  | [] => sub.isEmpty
  | c :: rest => sub.isPrefixOf (c :: rest) || strIncludesAux sub (rest)

/-- JavaScript `s.includes(sub)`. -/
def strIncludes (s sub : String) : Bool :=
  strIncludesAux sub.toList s.toList

/-- The regex `/\/pat\/([^\/?]+)/` applied to a pathname: the first position
where the literal pattern is followed by a nonempty run of characters other
than `/` and `?`; that run is the capture. -/
def segmentAfter (pat : List Char) : List Char → Option String
  | [] => none
  | c :: rest =>
    if pat.isPrefixOf (c :: rest) then
      let seg := ((c :: rest).drop pat.length).takeWhile fun ch => ch ≠ '/' && ch ≠ '?'
      if seg.isEmpty then segmentAfter pat rest else some (String.mk seg)
    else segmentAfter pat rest

/-- JavaScript `s.toLowerCase()` (over the ASCII letters that occur in the
strings this code compares). -/
def jsToLower (s : String) : String :=
  String.mk (s.toList.map Char.toLower)

/-- JavaScript `s.split('.')`: the list of dot-separated pieces (one empty
piece per boundary dot, and `[""]` for the empty string). -/
def splitOnDot : List Char → List (List Char)
  | [] => [[]]
  | c :: rest =>
    let r := splitOnDot rest
    if c = '.' then [] :: r
    else
      match r with
      | [] => [[c]]
      | h :: t => (c :: h) :: t

/-- `urlObj.pathname.split('.').pop()?.toLowerCase()` — the substring after
the last dot of the pathname (the whole pathname when it has no dot),
lowercased. `pop` on the nonempty array `split` returns is never undefined. -/
def jsExtension (pathname : String) : String :=
  jsToLower (String.mk ((splitOnDot pathname.toList).getLastD []))

/-- `VideoPlayerOptions` from `src/lib/ios/types`; an absent optional field is
`undefined`, which every use site treats as falsy, so defaults are `false`
and the preferred player defaults to `auto` via destructuring. -/
structure VideoPlayerOptions where
  forceDownload : Bool := false
  preferredPlayer : String := "auto"
  enableNativeControls : Bool := false
  allowExternalPlayer : Bool := false
  fallbackToSafari : Bool := false
  deriving DecidableEq, Repr

/-- `DeviceCapabilities` from `src/lib/ios/types`. -/
structure DeviceCapabilities where
  isIOS : Bool
  isIPad : Bool
  isIPhone : Bool
  hasNativeHLS : Bool
  hasWKWebView : Bool
  hasFileAPI : Bool
  hasNotificationAPI : Bool
  hasDownloadAPI : Bool
  isStandalone : Bool
  iOSVersion : Option (Nat × Nat × Nat)
  supportsPictureInPicture : Bool
  supportsAirPlay : Bool
  deriving DecidableEq, Repr

/-- `VideoInfo` from `src/lib/ios/types`. -/
structure VideoInfo where
  url : Url
  extension : String
  isLive : Bool := false
  size : Option Nat := none
  quality : List String := []
  mimeType : String := "application/octet-stream"
  deriving DecidableEq, Repr

/-- `PlaybackResult` from `src/lib/ios/types`. -/
structure PlaybackResult where
  success : Bool
  method : String
  player : Option String := none
  originalUrl : String
  error : Option String := none
  deriving DecidableEq, Repr

/-- `IOSVideoPlayer.getMimeType`. -/
def getMimeType (extension : String) : String :=
  match extension with
  | "mp4" | "m4v" => "video/mp4"
  | "mov" => "video/quicktime"
  | "m3u8" => "application/vnd.apple.mpegurl"
  | "avi" => "video/x-msvideo"
  | "mkv" => "video/x-matroska"
  | _ => "application/octet-stream"

/-- `IOSVideoPlayer.analyzeVideo`: extension from the pathname; liveness only
probed (over the network, modelled by `liveOracle`) for `m3u8`; the size from
a HEAD request, modelled by `sizeOracle`; quality extraction (network) is
modelled as empty — no claim consults it. -/
def analyzeVideo (u : Url) (liveOracle : Bool) (sizeOracle : Option Nat) : VideoInfo :=
  let extension := jsExtension u.pathname
  { url := u, extension := extension,
    isLive := if extension = "m3u8" then liveOracle else false,
    size := sizeOracle,
    quality := [],
    mimeType := getMimeType extension }

/-- `IOSVideoPlayer.isYouTubeVideo`. -/
def isYouTubeVideo (u : Url) : Bool :=
  let host := jsToLower u.hostname
  strIncludes host "youtube.com" || strIncludes host "youtu.be"

/-- `IOSVideoPlayer.shouldUseThirdPartyPlayer`: large-container extensions or
a probed size above 500 MB (an undefined extension is falsy; the empty string
is not in the list, so the truthiness guard is preserved by the `≠ ""`). -/
def shouldUseThirdPartyPlayer (videoInfo : VideoInfo) : Bool :=
  (videoInfo.extension ≠ "" && ["mkv", "avi", "wmv", "flv"].contains videoInfo.extension) ||
  (match videoInfo.size with
   | some n => decide (500 * 1024 * 1024 < n)
   | none => false)

/-- `IOSVideoPlayer.selectOptimalPlayer`: explicit preference, YouTube,
live stream, third-party formats, then the web default. -/
def selectOptimalPlayer (videoInfo : VideoInfo) (options : VideoPlayerOptions)
    (capabilities : DeviceCapabilities) : String :=
  if options.preferredPlayer ≠ "auto" then options.preferredPlayer
  else if isYouTubeVideo videoInfo.url then "youtube"
  else if videoInfo.isLive then
    (if capabilities.hasNativeHLS then "system" else "safari")
  else if shouldUseThirdPartyPlayer videoInfo then
    (if options.allowExternalPlayer then "vlc" else "system")
  else "web"

/-- `IOSVideoPlayer.extractYouTubeID`: `youtu.be` takes the pathname after the
leading slash; `youtube.com` hosts take the (truthy) `v` parameter, then the
`/shorts/` capture, then the `/embed/` capture. -/
def extractYouTubeID (u : Url) : Option String :=
  if u.hostname = "youtu.be" then some (String.mk (u.pathname.toList.drop 1))
  else if strIncludes u.hostname "youtube.com" then
    let fromPath : Option String :=
      match segmentAfter "/shorts/".toList u.pathname.toList with
      | some m => some m
      | none => segmentAfter "/embed/".toList u.pathname.toList
    match u.searchV with
    | some v => if v ≠ "" then some v else fromPath
    | none => fromPath
  else none

/-- `IOSVideoPlayer.launchSafariPlayer`: link-click handoff; the catch branch
(modelled by `domThrows`) returns the failed result. -/
def launchSafariPlayer (domThrows : Bool) (url : String) : PlaybackResult :=
  if domThrows then
    { success := false, method := "failed", originalUrl := url,
      error := some "Failed to launch Safari player" }
  else
    { success := true, method := "safari", player := some "Safari", originalUrl := url }

/-- `IOSVideoPlayer.launchSystemPlayer`: WKWebView bridge when present
(`bridgeAvailable` models `window.webkit?.messageHandlers?.player`), else the
Safari fallback. -/
def launchSystemPlayer (capabilities : DeviceCapabilities) (bridgeAvailable : Bool)
    (domThrows : Bool) (url : String) : PlaybackResult :=
  if capabilities.hasWKWebView && bridgeAvailable then
    { success := true, method := "native", player := some "AVPlayer", originalUrl := url }
  else
    launchSafariPlayer domThrows url

/-- `IOSVideoPlayer.launchWebPlayer`: dispatches the in-page custom event. -/
def launchWebPlayer (domThrows : Bool) (url : String) : PlaybackResult :=
  if domThrows then
    { success := false, method := "failed", originalUrl := url,
      error := some "Failed to launch web player" }
  else
    { success := true, method := "web", player := some "WebPlayer", originalUrl := url }

/-- `IOSVideoPlayer.launchYouTubePlayer`: rebuilds the watch URL from the
extracted id and hands it to the Safari launcher; without an id the original
URL goes to Safari. -/
def launchYouTubePlayer (domThrows : Bool) (u : Url) : PlaybackResult :=
  match extractYouTubeID u with
  | some videoId => launchSafariPlayer domThrows ("https://www.youtube.com/watch?v=" ++ videoId)
  | none => launchSafariPlayer domThrows u.href

/-- `IOSVideoPlayer.launchVLCPlayer`: `vlc://` URL-scheme handoff via a hidden
iframe; the catch branch returns the failed result — there is no further
fallback inside the dispatcher. -/
def launchVLCPlayer (domThrows : Bool) (url : String) : PlaybackResult :=
  if domThrows then
    { success := false, method := "failed", originalUrl := url,
      error := some "Failed to launch VLC player" }
  else
    { success := true, method := "urlscheme", player := some "VLC", originalUrl := url }

/-- `IOSVideoPlayer.downloadVideo`. -/
def downloadVideoLaunch (domThrows : Bool) (url : String) : PlaybackResult :=
  if domThrows then
    { success := false, method := "failed", originalUrl := url,
      error := some "Failed to download video" }
  else
    { success := true, method := "download", player := some "Download", originalUrl := url }

/-- `IOSVideoPlayer.launchDefaultPlayer`. -/
def launchDefaultPlayer (domThrows : Bool) (url : String) : PlaybackResult :=
  if domThrows then
    { success := false, method := "failed", originalUrl := url,
      error := some "Failed to open default player" }
  else
    { success := true, method := "safari", player := some "Default", originalUrl := url }

/-- `IOSVideoPlayer.launchPlayer`: the channel switch. -/
def launchPlayer (capabilities : DeviceCapabilities) (bridgeAvailable domThrows : Bool)
    (playerChoice : String) (u : Url) : PlaybackResult :=
  match playerChoice with
  | "system" => launchSystemPlayer capabilities bridgeAvailable domThrows u.href
  | "safari" => launchSafariPlayer domThrows u.href
  | "web" => launchWebPlayer domThrows u.href
  | "youtube" => launchYouTubePlayer domThrows u
  | "vlc" => launchVLCPlayer domThrows u.href
  | "download" => downloadVideoLaunch domThrows u.href
  | _ => launchDefaultPlayer domThrows u.href

/-- `IOSVideoPlayer.playVideo`: the non-iOS failure, then
analyze → select → launch. -/
def playVideo (capabilities : DeviceCapabilities) (bridgeAvailable domThrows : Bool)
    (u : Url) (options : VideoPlayerOptions) (liveOracle : Bool)
    (sizeOracle : Option Nat) : PlaybackResult :=
  if !capabilities.isIOS then
    { success := false, method := "failed", originalUrl := u.href,
      error := some "Device is not iOS" }
  else
    let videoInfo := analyzeVideo u liveOracle sizeOracle
    let playerChoice := selectOptimalPlayer videoInfo options capabilities
    launchPlayer capabilities bridgeAvailable domThrows playerChoice u

/-- `IOSVideoPlayer.getRecommendedPlayer`: the extension switch, in which the
`mp4`/`mov`/`m4v` branch returns `web` unconditionally — it never consults
the device's iOS version. -/
def getRecommendedPlayer (capabilities : DeviceCapabilities) (videoUrl : Url) : String :=
  let extension := jsExtension videoUrl.pathname
  match extension with
  | "m3u8" => if capabilities.hasNativeHLS then "system" else "web"
  | "mp4" | "mov" | "m4v" => "web"
  | "mkv" | "avi" => "vlc"
  | _ => "web"

/-- Modelled from the spec: the closed `ChannelChoice` tag set of §3
({embedded, platform-native, external-app, browser-delegated, download}).
The code uses string player ids instead; this vocabulary is only used to
state spec-level claims. -/
inductive ChannelChoice
  | embedded
  | platformNative
  | externalApp
  | browserDelegated
  | download
  deriving DecidableEq, Repr

/-- Modelled from the spec: the correspondence between the code's player-id
strings and the spec's channel tags — `web` is the embedded in-page player,
`system` the platform-native player, `youtube` and `vlc` are external-app
handoffs, `safari` is browser-delegated, `download` is download. -/
def specChannelOfPlayer : String → Option ChannelChoice
  | "web" => some ChannelChoice.embedded
  | "system" => some ChannelChoice.platformNative
  | "youtube" => some ChannelChoice.externalApp
  | "vlc" => some ChannelChoice.externalApp
  | "safari" => some ChannelChoice.browserDelegated
  | "download" => some ChannelChoice.download
  | _ => none

/-! ## Sample hosts, elements and descriptors used by the concrete theorems -/

/-- An iOS 15 browser host whose probe finds only `webkitRequestFullscreen`. -/
def sampleEnvIOS : Env :=
  { hasWindow := true, isIOSDevice := true, iosVersion := some (15, 0),
    divHasRequestFullscreen := false, divHasShowSystemUI := false,
    showSystemUIThrows := false, divHasWebkitRequestFullscreen := true,
    videoHasWebkitEnterFullscreen := false, divHasWebkitEnterFullscreen := false }

/-- A non-iOS browser host. -/
def sampleEnvDesktop : Env :=
  { hasWindow := true, isIOSDevice := false, iosVersion := none,
    divHasRequestFullscreen := true, divHasShowSystemUI := false,
    showSystemUIThrows := false, divHasWebkitRequestFullscreen := false,
    videoHasWebkitEnterFullscreen := false, divHasWebkitEnterFullscreen := false }

/-- An iOS host none of whose fullscreen probes pass. -/
def sampleEnvEmptyIOS : Env :=
  { hasWindow := true, isIOSDevice := true, iosVersion := some (14, 0),
    divHasRequestFullscreen := false, divHasShowSystemUI := false,
    showSystemUIThrows := false, divHasWebkitRequestFullscreen := false,
    videoHasWebkitEnterFullscreen := false, divHasWebkitEnterFullscreen := false }

/-- A target element exposing no fullscreen method at all. -/
def noCapsElem : ElemCaps :=
  { isVideo := false, hasRequestFullscreen := false, hasShowSystemUI := false,
    hasWebkitRequestFullscreen := false, hasWebkitEnterFullscreen := false }

/-- A target element exposing only `webkitRequestFullscreen`. -/
def webkitElem : ElemCaps :=
  { isVideo := false, hasRequestFullscreen := false, hasShowSystemUI := false,
    hasWebkitRequestFullscreen := true, hasWebkitEnterFullscreen := false }

/-- A concrete pre-fullscreen inline style. -/
def sampleStyle : ElemStyle :=
  { position := "relative", top := "10px", left := "10px", width := "320px",
    height := "180px", zIndex := "5", margin := "8px", padding := "2px",
    borderRadius := "4px", overflow := "visible" }

/-- A document exposing a working `webkitExitFullscreen`. -/
def sampleExitEnv : ExitEnv :=
  { hasWebkitExitFullscreen := true, hasExitFullscreen := false,
    hasWebkitCancelFullScreen := false, stillFullscreenAfterExit := false }

/-- The spec's short-link descriptor `https://youtu.be/abcd1234`. -/
def ytUrl : Url :=
  { href := "https://youtu.be/abcd1234", hostname := "youtu.be",
    pathname := "/abcd1234", searchV := none }

/-- An `.mkv` descriptor on a neutral host. -/
def mkvUrl : Url :=
  { href := "https://example.com/video.mkv", hostname := "example.com",
    pathname := "/video.mkv", searchV := none }

/-- An `.mp4` descriptor on a neutral host. -/
def mp4Url : Url :=
  { href := "https://example.com/video.mp4", hostname := "example.com",
    pathname := "/video.mp4", searchV := none }

/-- An iOS 16.3.1 capability record. -/
def caps16 : DeviceCapabilities :=
  { isIOS := true, isIPad := false, isIPhone := true, hasNativeHLS := true,
    hasWKWebView := true, hasFileAPI := true, hasNotificationAPI := true,
    hasDownloadAPI := true, isStandalone := false, iOSVersion := some (16, 3, 1),
    supportsPictureInPicture := true, supportsAirPlay := true }

/-- The same record with the version raised to iOS 17.0.0 — the two records
differ only in the host version. -/
def caps17 : DeviceCapabilities :=
  { caps16 with iOSVersion := some (17, 0, 0) }

/-! ## Helper lemmas -/

/-- If every method in the list fails on the element, the attempt chain
produces no success. -/
theorem firstSuccess_eq_none (el : ElemCaps) (ms : List String)
    (h : ∀ m ∈ ms, (executeMethod el m).success = false) :
    firstSuccess el ms = none := by
  induction ms with
  | nil => rfl
  | cons m rest ih =>
    have hm : (executeMethod el m).success = false := h m (by simp)
    simp only [firstSuccess, hm]
    exact ih fun x hx => h x (by simp [hx])

/-- A probe record with a nonempty method set is reported supported. -/
theorem isSupported_of_methods_ne_nil (env : Env)
    (h : (detect env).availableMethods ≠ []) :
    (detect env).isSupported = true := by
  unfold detect at *
  by_cases hw : env.hasWindow
  · by_cases hi : env.isIOSDevice
    · simp only [hw, hi] at h ⊢
      simp_all [List.isEmpty_iff]
    · simp [hw, hi]
  · simp [hw]

/-- The executor reports failure exactly for the server environment or an
unsupported probe record. -/
theorem enterFullscreenExec_success_false_iff (env : Env) (el : ElemCaps)
    (style : ElemStyle) (pref : String) :
    (enterFullscreenExec env el style pref).res.success = false ↔
      (env.hasWindow = false ∨ (detect env).isSupported = false) := by
  unfold enterFullscreenExec
  by_cases hw : env.hasWindow
  · by_cases hs : (detect env).isSupported
    · simp only [hw, hs]
      constructor
      · intro hfalse
        exfalso
        revert hfalse
        cases hfs : firstSuccess el (getMethodPriority (detect env) pref) with
        | none => simp [hfs, forceFallbackFullscreen]
        | some r =>
          have : r.success = true := by
            revert hfs
            generalize getMethodPriority (detect env) pref = ms
            induction ms with
            | nil => intro hfs; exact absurd hfs (by simp [firstSuccess])
            | cons m rest ih =>
              intro hfs
              by_cases hm : (executeMethod el m).success
              · simp only [firstSuccess, hm, if_true, Option.some.injEq] at hfs
                subst hfs; exact hm
              · simp only [firstSuccess, hm, if_false] at hfs
                simp only [Bool.false_eq_true, if_false] at hfs
                exact ih hfs
          simp [hfs, this]
      · intro hor
        rcases hor with h1 | h2
        · exact absurd h1 (by simp [hw])
        · exact absurd h2 (by simp [hs])
    · simp [hw, Bool.eq_false_iff.mpr hs, hs]
  · simp [Bool.eq_false_iff.mpr hw, hw]

/-- The Safari launcher always carries the URL it was handed. -/
theorem launchSafariPlayer_originalUrl (domThrows : Bool) (url : String) :
    (launchSafariPlayer domThrows url).originalUrl = url := by
  unfold launchSafariPlayer; split <;> rfl

/-- `launchPlayer` preserves the caller's URL on every channel, except the
YouTube launcher with an extractable id, where the result carries the rebuilt
watch URL. -/
theorem launchPlayer_originalUrl (capabilities : DeviceCapabilities)
    (bridgeAvailable domThrows : Bool) (choice : String) (u : Url) :
    (launchPlayer capabilities bridgeAvailable domThrows choice u).originalUrl = u.href ∨
    ∃ videoId, extractYouTubeID u = some videoId ∧
      (launchPlayer capabilities bridgeAvailable domThrows choice u).originalUrl
        = "https://www.youtube.com/watch?v=" ++ videoId := by
  unfold launchPlayer
  split
  · unfold launchSystemPlayer
    split
    · left; rfl
    · left; exact launchSafariPlayer_originalUrl domThrows u.href
  · left; exact launchSafariPlayer_originalUrl domThrows u.href
  · left; unfold launchWebPlayer; split <;> rfl
  · unfold launchYouTubePlayer
    cases hid : extractYouTubeID u with
    | some videoId =>
      right
      refine ⟨videoId, rfl, ?_⟩
      simp only [hid]
      exact launchSafariPlayer_originalUrl domThrows _
    | none =>
      left
      simp only [hid]
      exact launchSafariPlayer_originalUrl domThrows u.href
  · left; unfold launchVLCPlayer; split <;> rfl
  · left; unfold downloadVideoLaunch; split <;> rfl
  · left; unfold launchDefaultPlayer; split <;> rfl

/-! ## Claim theorems -/

/-- C1: in a browser environment whose capability probe reports at least one
supported method, when every ranked backend attempt fails the executor's
`enterFullscreen` still applies the degraded CSS-emulation fallback and
returns success with the degraded `css-fallback` method tag; and in general
the executor returns `success = false` exactly when no backend, including
degraded emulation, could be applied — the server-side environment or an
unsupported device. -/
theorem enterFullscreen_degraded_success (env : Env) (el : ElemCaps)
    (style : ElemStyle) (pref : String)
    (hwin : env.hasWindow = true)
    (hprobe : (detect env).availableMethods ≠ [])
    (hfail : ∀ m ∈ getMethodPriority (detect env) pref,
      (executeMethod el m).success = false) :
    (enterFullscreenExec env el style pref).res.success = true ∧
    (enterFullscreenExec env el style pref).res.method = "css-fallback" ∧
    (enterFullscreenExec env el style pref).style = (forceFallbackFullscreen style).2 ∧
    ∀ env2 el2 style2 pref2,
      ((enterFullscreenExec env2 el2 style2 pref2).res.success = false ↔
        (env2.hasWindow = false ∨ (detect env2).isSupported = false)) := by
  have hsup : (detect env).isSupported = true := isSupported_of_methods_ne_nil env hprobe
  have hnone : firstSuccess el (getMethodPriority (detect env) pref) = none :=
    firstSuccess_eq_none el _ hfail
  refine ⟨?_, ?_, ?_, fun env2 el2 style2 pref2 =>
    enterFullscreenExec_success_false_iff env2 el2 style2 pref2⟩ <;>
    simp [enterFullscreenExec, hwin, hsup, hnone, forceFallbackFullscreen]

/-- Witness for C1 at a concrete iOS host whose probe finds one method and a
target element on which every ranked attempt fails. -/
theorem enterFullscreen_degraded_success_witness :
    (enterFullscreenExec sampleEnvIOS noCapsElem sampleStyle "native").res.success = true ∧
    (enterFullscreenExec sampleEnvIOS noCapsElem sampleStyle "native").res.method
      = "css-fallback" :=
  ⟨(enterFullscreen_degraded_success sampleEnvIOS noCapsElem sampleStyle "native"
      rfl (by decide) (by decide)).1,
   (enterFullscreen_degraded_success sampleEnvIOS noCapsElem sampleStyle "native"
      rfl (by decide) (by decide)).2.1⟩

/-- C2 counterexample: for the capability record the probe produces on a
non-iOS browser host (available methods `[requestFullscreen]`), the candidate
list for the `native` mode contains `showSystemUI`, which is absent from the
record's available-methods set; and for an iOS host with an empty probe set
the candidate list is nonetheless nonempty. -/
theorem getMethodPriority_not_filtered :
    "showSystemUI" ∈ getMethodPriority (detect sampleEnvDesktop) "native" ∧
    "showSystemUI" ∉ (detect sampleEnvDesktop).availableMethods ∧
    (detect sampleEnvEmptyIOS).availableMethods = [] ∧
    getMethodPriority (detect sampleEnvEmptyIOS) "native" ≠ [] := by
  decide

/-- C2 (amended): the candidate list handed to the executor is a fixed
priority list determined solely by the requested (preferred) mode; it never
consults the capability record — two arbitrary records yield the same list,
and the list is never empty. Unavailable entries are weeded out only later,
at attempt time, where `executeMethod` fails and the chain advances. -/
theorem getMethodPriority_fixed_by_mode (info1 info2 : IOSFullscreenInfo)
    (preferred : String) :
    getMethodPriority info1 preferred = getMethodPriority info2 preferred ∧
    getMethodPriority info1 preferred ≠ [] := by
  constructor
  · rfl
  · unfold getMethodPriority
    split <;> simp

/-- C3: on an iOS host, a fullscreen request issued before a qualifying user
interaction short-circuits at both entry points: the component's
`enterFullscreen` returns `false` with the friendly guidance toast (clearing,
not setting, the error), touches no backend and leaves the fullscreen flag
alone; the hook's `toggleFullscreen` (with its default iOS optimizations)
shows the same guidance, invokes no backend, performs no state set and leaves
the element style unchanged. -/
theorem needs_interaction_short_circuit (env : Env) (el vid : ElemCaps)
    (ex : ExitEnv) (style : ElemStyle) (st : CompState) (native : Bool)
    (ftype : String)
    (hios : (detect env).isIOS = true)
    (hinter : st.hasUserInteracted = false) :
    (enterFullscreenComp env el true st style).returned = false ∧
    (enterFullscreenComp env el true st style).guidance
      = some "请点击屏幕任意位置后再尝试全屏" ∧
    (enterFullscreenComp env el true st style).backendCalls = [] ∧
    (enterFullscreenComp env el true st style).st.isFullscreen = st.isFullscreen ∧
    (enterFullscreenComp env el true st style).style = style ∧
    (toggleFullscreen env el vid ex style true true false native ftype).1.guidance
      = some "请点击屏幕任意位置后再尝试全屏" ∧
    (toggleFullscreen env el vid ex style true true false native ftype).1.backendCalls
      = [] ∧
    (toggleFullscreen env el vid ex style true true false native ftype).1.setFullscreen
      = none ∧
    (toggleFullscreen env el vid ex style true true false native ftype).2 = style := by
  simp [enterFullscreenComp, toggleFullscreen, hinter, hios]

/-- Witness for C3 at a concrete iOS host and a fresh, never-interacted
component state. -/
theorem needs_interaction_short_circuit_witness :
    (enterFullscreenComp sampleEnvIOS noCapsElem true ⟨false, false, ""⟩ sampleStyle).returned
      = false ∧
    (enterFullscreenComp sampleEnvIOS noCapsElem true ⟨false, false, ""⟩ sampleStyle).backendCalls
      = [] ∧
    (toggleFullscreen sampleEnvIOS noCapsElem noCapsElem sampleExitEnv sampleStyle
      true true false false "auto").1.backendCalls = [] :=
  ⟨(needs_interaction_short_circuit sampleEnvIOS noCapsElem noCapsElem sampleExitEnv
      sampleStyle ⟨false, false, ""⟩ false "auto" (by decide) rfl).1,
   (needs_interaction_short_circuit sampleEnvIOS noCapsElem noCapsElem sampleExitEnv
      sampleStyle ⟨false, false, ""⟩ false "auto" (by decide) rfl).2.2.1,
   (needs_interaction_short_circuit sampleEnvIOS noCapsElem noCapsElem sampleExitEnv
      sampleStyle ⟨false, false, ""⟩ false "auto" (by decide) rfl).2.2.2.2.2.2.1⟩

/-- C4: evaluation at the failing input — the degraded CSS-emulation entry
captures the element's layout style and overwrites it, and the exit path
(component `exitFullscreen`) leaves the overwritten fullscreen values in
place: the captured original values are never restored on exit. -/
theorem degraded_style_not_restored :
    (enterFullscreenComp sampleEnvIOS noCapsElem true ⟨false, true, ""⟩ sampleStyle).st.isFullscreen
      = true ∧
    (enterFullscreenComp sampleEnvIOS noCapsElem true ⟨false, true, ""⟩ sampleStyle).style.position
      = "fixed" ∧
    (exitFullscreenComp sampleEnvIOS sampleExitEnv
        (enterFullscreenComp sampleEnvIOS noCapsElem true ⟨false, true, ""⟩ sampleStyle).st
        (enterFullscreenComp sampleEnvIOS noCapsElem true ⟨false, true, ""⟩ sampleStyle).style).1.isFullscreen
      = false ∧
    (exitFullscreenComp sampleEnvIOS sampleExitEnv
        (enterFullscreenComp sampleEnvIOS noCapsElem true ⟨false, true, ""⟩ sampleStyle).st
        (enterFullscreenComp sampleEnvIOS noCapsElem true ⟨false, true, ""⟩ sampleStyle).style).2
      = (enterFullscreenComp sampleEnvIOS noCapsElem true ⟨false, true, ""⟩ sampleStyle).style ∧
    (exitFullscreenComp sampleEnvIOS sampleExitEnv
        (enterFullscreenComp sampleEnvIOS noCapsElem true ⟨false, true, ""⟩ sampleStyle).st
        (enterFullscreenComp sampleEnvIOS noCapsElem true ⟨false, true, ""⟩ sampleStyle).style).2.position
      ≠ sampleStyle.position := by
  decide

/-- C5 counterexample: with the target already active
(`isFullscreen = true`), a second enter request still issues a privileged
backend call (`webkitRequestFullscreen`) — the entry point performs no
already-active check. -/
theorem second_enter_reinvokes_backend :
    (enterFullscreenComp sampleEnvIOS webkitElem true ⟨true, true, ""⟩ sampleStyle).backendCalls
      = ["webkitRequestFullscreen"] ∧
    (enterFullscreenComp sampleEnvIOS webkitElem true ⟨true, true, ""⟩ sampleStyle).backendCalls
      ≠ [] ∧
    (enterFullscreenComp sampleEnvIOS webkitElem true ⟨true, true, ""⟩ sampleStyle).st.isFullscreen
      = true := by
  decide

/-- C5 (amended): the enter entry point never consults the active flag — with
all other inputs equal it returns the same boolean, issues the same backend
calls and produces the same element style whether or not the target is
already active; a second enter request therefore re-executes the full backend
chain instead of being a no-op. -/
theorem enter_ignores_active_flag (env : Env) (el : ElemCaps) (hc : Bool)
    (inter : Bool) (err : String) (style : ElemStyle) (b1 b2 : Bool) :
    (enterFullscreenComp env el hc ⟨b1, inter, err⟩ style).backendCalls
      = (enterFullscreenComp env el hc ⟨b2, inter, err⟩ style).backendCalls ∧
    (enterFullscreenComp env el hc ⟨b1, inter, err⟩ style).returned
      = (enterFullscreenComp env el hc ⟨b2, inter, err⟩ style).returned ∧
    (enterFullscreenComp env el hc ⟨b1, inter, err⟩ style).style
      = (enterFullscreenComp env el hc ⟨b2, inter, err⟩ style).style := by
  unfold enterFullscreenComp
  cases hc with
  | false => exact ⟨rfl, rfl, rfl⟩
  | true =>
    cases inter with
    | false => exact ⟨rfl, rfl, rfl⟩
    | true =>
      by_cases hs : (enterFullscreenExec env el style "native").res.success <;>
        simp [hs]

/-- C6 counterexample: after a degraded entry (internal flag true, captured
style overwritten), one poll tick with host ground truth `false` flips the
internal flag to false, but the captured-style release does not run at all —
the element keeps the overwritten fullscreen values, so the release did not
run exactly once on the exit transition. -/
theorem reconcile_exit_without_release :
    (pollTick false
        (enterFullscreenComp sampleEnvIOS noCapsElem true ⟨false, true, ""⟩ sampleStyle).st
        (enterFullscreenComp sampleEnvIOS noCapsElem true ⟨false, true, ""⟩ sampleStyle).style).1.isFullscreen
      = false ∧
    (pollTick false
        (enterFullscreenComp sampleEnvIOS noCapsElem true ⟨false, true, ""⟩ sampleStyle).st
        (enterFullscreenComp sampleEnvIOS noCapsElem true ⟨false, true, ""⟩ sampleStyle).style).2.position
      = "fixed" ∧
    sampleStyle.position = "relative" := by
  decide

/-- C6 (amended): whenever host ground truth is `false` while the internal
flag is `true`, a single poll tick overwrites the internal flag to `false`;
no captured-style release accompanies the transition — the element style
passes through the reconciliation unchanged. -/
theorem pollTick_reconciles_without_release (st : CompState) (style : ElemStyle)
    (h : st.isFullscreen = true) :
    pollTick false st style = ({ st with isFullscreen := false }, style) := by
  simp [pollTick, validateFullscreenState, h]

/-- Witness for the amended C6 at a concrete active state. -/
theorem pollTick_reconciles_without_release_witness :
    pollTick false ⟨true, true, ""⟩ sampleStyle
      = (⟨false, true, ""⟩, sampleStyle) :=
  pollTick_reconciles_without_release ⟨true, true, ""⟩ sampleStyle rfl

/-- C7: evaluation at the failing input — two capability records differing
only in host version (iOS 16.3.1 vs iOS 17.0.0) yield the same recommended
channel `web` (embedded) for an `.mp4` descriptor; the shipped
`getRecommendedPlayer` never consults the version, so the documented
version-threshold rule (below the threshold: `system`, i.e. platform-native)
is not implemented. -/
theorem getRecommendedPlayer_ignores_version :
    getRecommendedPlayer caps16 mp4Url = "web" ∧
    getRecommendedPlayer caps17 mp4Url = "web" ∧
    specChannelOfPlayer "web" = some ChannelChoice.embedded ∧
    ∀ (caps : DeviceCapabilities) (v1 v2 : Option (Nat × Nat × Nat)) (u : Url),
      getRecommendedPlayer { caps with iOSVersion := v1 } u
        = getRecommendedPlayer { caps with iOSVersion := v2 } u := by
  exact ⟨by decide, by decide, by decide, fun caps v1 v2 u => rfl⟩

/-- C8 counterexample: for the `.mkv` descriptor under preference `auto` and
the caller's default options, the router selects `system` — the
platform-native channel, not the external-app channel the claim names. -/
theorem mkv_auto_default_selects_system :
    selectOptimalPlayer (analyzeVideo mkvUrl false none) {} caps16 = "system" ∧
    specChannelOfPlayer "system" = some ChannelChoice.platformNative ∧
    specChannelOfPlayer "system" ≠ some ChannelChoice.externalApp := by
  decide

/-- C8 (amended): for the `.mkv` descriptor under preference `auto` the
router selects `vlc` (external-app) exactly when the caller sets
`allowExternalPlayer` (as the repository's player components do) and `system`
otherwise; and when the VLC dispatch fails, the dispatcher returns the failed
outcome directly — no cascade to the browser-delegated channel occurs. -/
theorem mkv_routing_and_no_cascade :
    selectOptimalPlayer (analyzeVideo mkvUrl false none)
        { allowExternalPlayer := true } caps16 = "vlc" ∧
    specChannelOfPlayer "vlc" = some ChannelChoice.externalApp ∧
    selectOptimalPlayer (analyzeVideo mkvUrl false none) {} caps16 = "system" ∧
    (playVideo caps16 false true mkvUrl { allowExternalPlayer := true } false none).success
      = false ∧
    (playVideo caps16 false true mkvUrl { allowExternalPlayer := true } false none).method
      = "failed" ∧
    (playVideo caps16 false true mkvUrl { allowExternalPlayer := true } false none).method
      ≠ "safari" := by
  decide

/-- C9: for the short-link descriptor `https://youtu.be/abcd1234`, the
extracted content id is the trailing path segment `abcd1234`, the router
chooses the `youtube` channel (the spec's external-app), and the handoff
target the dispatcher constructs embeds that id. -/
theorem shortlink_external_app_routing :
    extractYouTubeID ytUrl = some "abcd1234" ∧
    selectOptimalPlayer (analyzeVideo ytUrl false none) {} caps16 = "youtube" ∧
    specChannelOfPlayer "youtube" = some ChannelChoice.externalApp ∧
    (launchYouTubePlayer false ytUrl).originalUrl
      = "https://www.youtube.com/watch?v=abcd1234" ∧
    strIncludes (launchYouTubePlayer false ytUrl).originalUrl "abcd1234" = true := by
  decide

/-- C10 counterexample: for the `youtu.be` descriptor, `playVideo` returns a
result whose `originalUrl` is the rebuilt YouTube watch URL, not the URL the
caller passed in. -/
theorem playVideo_originalUrl_rewritten :
    (playVideo caps16 false false ytUrl {} false none).originalUrl
      = "https://www.youtube.com/watch?v=abcd1234" ∧
    (playVideo caps16 false false ytUrl {} false none).originalUrl ≠ ytUrl.href := by
  decide

/-- C10 (amended): on every channel branch the `PlaybackResult` returned by
`playVideo` carries `originalUrl` equal to the caller's URL, except when the
YouTube launcher extracts a video id — then `originalUrl` is the rebuilt
watch URL embedding that id. -/
theorem playVideo_originalUrl_characterization (capabilities : DeviceCapabilities)
    (bridgeAvailable domThrows : Bool) (u : Url) (options : VideoPlayerOptions)
    (liveOracle : Bool) (sizeOracle : Option Nat) :
    (playVideo capabilities bridgeAvailable domThrows u options liveOracle
        sizeOracle).originalUrl = u.href ∨
    ∃ videoId, extractYouTubeID u = some videoId ∧
      (playVideo capabilities bridgeAvailable domThrows u options liveOracle
          sizeOracle).originalUrl = "https://www.youtube.com/watch?v=" ++ videoId := by
  unfold playVideo
  by_cases hios : capabilities.isIOS
  · simp only [hios, Bool.not_true, Bool.false_eq_true, if_false]
    exact launchPlayer_originalUrl capabilities bridgeAvailable domThrows _ u
  · left
    simp [hios]

end KVideo
